import Mathlib

/-!
Verification of the AnehtaLanguage compiler front end (Go sources:
`atoken/atokentype.go`, `atoken/atoken.go`, and the `aparser` package).

The Go code is shallowly embedded: the tokenizer's in-place rune-index
mutation becomes explicit index passing (`Int` indices, since the Go code
decrements indices below the start position in places), the `container/list`
based token cursor becomes a `List` plus an `Option Nat` position (Go's
`nil` iterator), `big.Rat` becomes `ℚ`, and the `os.Exit(1)` /
nil-pointer-dereference behaviours become explicit error constructors.
All definitions are executable.
-/

namespace Anehta

/-! ### Token kind constants (atoken/atokentype.go) -/

namespace atoken

def NUM : Nat := 1
def WORD : Nat := 2
def ADD : Nat := 3
def SUB : Nat := 4
def MUL : Nat := 5
def DIV : Nat := 6
def ADDSELF : Nat := 7
def SUBSELF : Nat := 8
def POWER : Nat := 9
def NOT : Nat := 10
def CASTING : Nat := 11
def QUOTE : Nat := 12
def GT : Nat := 13
def LT : Nat := 14
def GTEQ : Nat := 15
def LTEQ : Nat := 16
def EQ : Nat := 17
def NOEQ : Nat := 18
def AND : Nat := 19
def OR : Nat := 20
def ALSO : Nat := 21
def PERHAPS : Nat := 22
def ESCAPE : Nat := 23
def COMPOSITE_ADD : Nat := 24
def COMPOSITE_SUB : Nat := 25
def COMPOSITE_MUL : Nat := 26
def COMPOSITE_DIV : Nat := 27
def MOD : Nat := 28
def RAND : Nat := 29
def FUNC : Nat := 30
def IF : Nat := 31
def ELSE : Nat := 32
def NEW : Nat := 33
def LBRACE : Nat := 34
def RBRACE : Nat := 35
def LBRACKET : Nat := 36
def RBRACKET : Nat := 37
def LP : Nat := 38
def RP : Nat := 39
def NUMBER : Nat := 40
def INT : Nat := 41
def INT64 : Nat := 42
def CHAR : Nat := 43
def STRING : Nat := 44
def LIST : Nat := 45
def MAP : Nat := 46
def VAR : Nat := 47
def FOR : Nat := 48
def BREAK : Nat := 49
def COMMA : Nat := 50
def COLON : Nat := 51
def SWITCH : Nat := 52
def CASE : Nat := 53
def ELSEIF : Nat := 54
def SEMICOLON : Nat := 55
def ASSIGMENT : Nat := 56
def EOF : Nat := 57
def RETURN : Nat := 58
def TRUE : Nat := 59
def FALSE : Nat := 60
def CONTINUE : Nat := 61

end atoken

/-- `AToken` (atoken.go). The Go field `Type` is renamed `Ty` because `Type`
is a Lean keyword. -/
structure AToken where
  Line : Int
  Column : Int
  Value : String
  Ty : Nat
deriving DecidableEq, Repr

/-- `ALexError` (atoken.go). -/
structure ALexError where
  Line : Int
  Column : Int
  error_info : String
deriving DecidableEq, Repr

/-! ### Token cursor (`ATokenList.GetToken` / `ATokenList.BackToken`)

The Go `container/list` iterator `current_iterator` is either an element of
the token list or `nil`; we model it as `Option Nat`: `some i` is the
iterator standing on the `i`-th token, `none` is the nil iterator (past the
end, or the absent element of an empty list). -/

structure Cursor where
  tokens : List AToken
  pos : Option Nat
deriving DecidableEq, Repr

/-- Index of `token_list.Back()` (`nil` on an empty list). -/
def listBack (l : List AToken) : Option Nat :=
  if l.length = 0 then none else some (l.length - 1)

/-- `ATokenList.GetToken`: if the iterator is nil, reset it to `Back()` and
return the (nil) uninitialized `tmp`; otherwise return the current token and
advance the iterator (to `none` when it falls off the end). -/
def Cursor.GetToken (c : Cursor) : Option AToken × Cursor :=
  match c.pos with
  | none => (none, { c with pos := listBack c.tokens })
  | some i =>
      (c.tokens.get? i,
       { c with pos := if i + 1 < c.tokens.length then some (i + 1) else none })

/-- `ATokenList.BackToken`: if the iterator is nil, move to `Back().Prev()`,
else to `Prev()`; return the token under the new iterator.  A `none` first
component models the Go nil-pointer dereference of `current_iterator.Value`
when the new iterator is nil. -/
def Cursor.BackToken (c : Cursor) : Option AToken × Cursor :=
  match c.pos with
  | none =>
      let p := if 2 ≤ c.tokens.length then some (c.tokens.length - 2) else none
      (p.bind c.tokens.get?, { c with pos := p })
  | some i =>
      let p := if i = 0 then none else some (i - 1)
      (p.bind c.tokens.get?, { c with pos := p })

/-! ### Tokenizer (atoken/atoken.go)

Indices are `Int` because the Go code decrements the running index, in some
cases below the position it started from.  `ridx` is the guarded rune access
`(*source)[i]` (`none` stands for an index that Go could not legally read). -/

def ridx (source : List Char) (i : Int) : Option Char :=
  if 0 ≤ i then source.get? i.toNat else none

/-- `judge_symbol`. -/
def judge_symbol (ch : Char) : Bool :=
  ('A' ≤ ch && ch ≤ 'Z') || ('a' ≤ ch && ch ≤ 'z') || ch = '_' || ('0' ≤ ch && ch ≤ '9')

/-- `judge_word`: try to match the keyword `data` at index `i` of `source`.
`k` is the loop counter of Go's `for i, v := range data` (characters matched
so far).  Returns Go's boolean result together with the final index: one
before the end of the keyword on success, the original index on failure. -/
def judge_word (data : List Char) (i : Int) (source : List Char) (k : Nat) : Bool × Int :=
  match data with
  | [] => (true, i - 1)
  | v :: rest =>
      if ridx source i = some v then judge_word rest (i + 1) source (k + 1)
      else (false, i - (k : Int))

/-- The loop of `judge_other`.  The first argument is the still-unread
suffix `source.drop i` of the rune slice, so Go's `(*index) >= len(*source)`
bounds check becomes the `[]` pattern and the loop is structurally
recursive.  Returns the accumulated identifier characters and the final
index. -/
def judge_other_go : List Char → Nat → List Char → List Char × Int
  | [], i, tmp => (tmp, (i : Int))
  | ch :: rest, i, tmp =>
      if judge_symbol ch then judge_other_go rest (i + 1) (tmp ++ [ch])
      else (tmp, (i : Int) - 1)

/-- The loop of `judge_space` (same suffix representation): skip spaces,
tabs and vertical tabs, then step one back. -/
def judge_space_go : List Char → Nat → Int
  | [], i => (i : Int) - 1
  | ch :: rest, i =>
      if ch = ' ' || ch = '\t' || ch = Char.ofNat 11 then judge_space_go rest (i + 1)
      else (i : Int) - 1

/-- The loop of `judge_number` (same suffix representation).  Returns the
literal characters, the lex errors pushed (at most one, from the
`dot_count > 1` branch), and the final index.  Note the Go comparison is
`dot_count > 1`: the error fires on the third dot of a literal, not the
second. -/
def judge_number_go : List Char → Nat → List Char → Nat → Int → Int →
    List Char × List ALexError × Int
  | [], i, tmp, _, _, _ => (tmp, [], (i : Int))
  | ch :: rest, i, tmp, dot_count, line, col =>
      if '0' ≤ ch && ch ≤ '9' then
        judge_number_go rest (i + 1) (tmp ++ [ch]) dot_count line col
      else if ch = '.' then
        if dot_count > 1 then (tmp, [⟨line, col, "illegal number"⟩], (i : Int) - 1)
        else judge_number_go rest (i + 1) (tmp ++ [ch]) (dot_count + 1) line col
      else (tmp, [], (i : Int) - 1)

/-- Result of the `judge_string` loop.  `.panic` is the Go index-out-of-range
runtime error: after a backslash the code reads `(*source)[*index]` with no
bounds check. -/
inductive JSResult where
  | ok (value : List Char) (errs : List ALexError) (idx : Int)
  | panic
deriving DecidableEq, Repr

/-- The loop of `judge_string` (same suffix representation).  `count` counts
the `"` characters seen; in the backslash branch the unchecked read of the
next rune either consumes it (`c2`) or panics at the end of the input. -/
def judge_string_go : List Char → Nat → List Char → Nat → Int → Int → JSResult
  | [], i, tmp, count, line, col =>
      .ok tmp (if count < 2 then [⟨line, col, "lose a \x27\"\x27"⟩] else []) (i : Int)
  | ch :: rest, i, tmp, count, line, col =>
      if 2 ≤ count then .ok tmp [] ((i : Int) - 1)
      else if ch = '"' then judge_string_go rest (i + 1) tmp (count + 1) line col
      else if ch = '\\' then
        match rest with
        | c2 :: rest2 => judge_string_go rest2 (i + 2) (tmp ++ [c2]) count line col
        | [] => .panic
      else judge_string_go rest (i + 1) (tmp ++ [ch]) count line col

/-- The mutable scan state of `ATokenList.ReadString`: the token list, the
error list and the running line/column counters. -/
structure ScanState where
  tokens : List AToken
  errors : List ALexError
  Line : Int
  Column : Int
deriving DecidableEq, Repr

def ScanState.push (st : ScanState) (v : String) (ty : Nat) : ScanState :=
  { st with tokens := st.tokens ++ [{ Line := st.Line, Column := st.Column, Value := v, Ty := ty }] }

def ScanState.pushE (st : ScanState) (e : ALexError) : ScanState :=
  { st with errors := st.errors ++ [e] }

/-- One iteration of the `switch data[i]` statement of `ReadString` (the body
of the scan loop up to, but not including, the trailing column update and
`i++`).  `c` is `data[i]`.  Returns the index after the switch and the
updated state; `none` is a Go runtime panic (propagated from
`judge_string`). -/
def scan_case (data : List Char) (i : Int) (c : Char) (st : ScanState) :
    Option (Int × ScanState) :=
  if c = 'f' then -- func | for | false | identifier
    let (b1, i1) := judge_word "func".toList i data 0
    if b1 then some (i1, st.push "func" atoken.FUNC)
    else
      let (b2, i2) := judge_word "for".toList i1 data 0
      if b2 then some (i2, st.push "for" atoken.FOR)
      else
        let (b3, i3) := judge_word "false".toList i2 data 0
        if b3 then some (i3, st.push "false" atoken.FALSE)
        else
          let (v, i4) := judge_other_go (data.drop i3.toNat) i3.toNat []
          some (i4, st.push (String.mk v) atoken.WORD)
  else if c = 't' then -- true | identifier
    let (b1, i1) := judge_word "true".toList i data 0
    if b1 then some (i1, st.push "true" atoken.TRUE)
    else
      let (v, i2) := judge_other_go (data.drop i1.toNat) i1.toNat []
      some (i2, st.push (String.mk v) atoken.WORD)
  else if c = 'r' then -- return | identifier
    let (b1, i1) := judge_word "return".toList i data 0
    if b1 then some (i1, st.push "return" atoken.RETURN)
    else
      let (v, i2) := judge_other_go (data.drop i1.toNat) i1.toNat []
      some (i2, st.push (String.mk v) atoken.WORD)
  else if c = 'i' then -- if | identifier
    let (b1, i1) := judge_word "if".toList i data 0
    if b1 then some (i1, st.push "if" atoken.IF)
    else
      let (v, i2) := judge_other_go (data.drop i1.toNat) i1.toNat []
      some (i2, st.push (String.mk v) atoken.WORD)
  else if c = 'e' then -- elseif | else | identifier
    let (b1, i1) := judge_word "elseif".toList i data 0
    if b1 then some (i1, st.push "elseif" atoken.ELSEIF)
    else
      let (b2, i2) := judge_word "else".toList i1 data 0
      if b2 then some (i2, st.push "else" atoken.ELSE)
      else
        let (v, i3) := judge_other_go (data.drop i2.toNat) i2.toNat []
        some (i3, st.push (String.mk v) atoken.WORD)
  else if c = 'n' then -- new | number | identifier
    let (b1, i1) := judge_word "new".toList i data 0
    if b1 then some (i1, st.push "new" atoken.NEW)
    else
      let (b2, i2) := judge_word "number".toList i1 data 0
      if b2 then some (i2, st.push "number" atoken.NUMBER)
      else
        let (v, i3) := judge_other_go (data.drop i2.toNat) i2.toNat []
        some (i3, st.push (String.mk v) atoken.WORD)
  else if c = 'l' then -- list | identifier
    let (b1, i1) := judge_word "list".toList i data 0
    if b1 then some (i1, st.push "list" atoken.LIST)
    else
      let (v, i2) := judge_other_go (data.drop i1.toNat) i1.toNat []
      some (i2, st.push (String.mk v) atoken.WORD)
  else if c = 'm' then -- map | identifier
    let (b1, i1) := judge_word "map".toList i data 0
    if b1 then some (i1, st.push "map" atoken.MAP)
    else
      let (v, i2) := judge_other_go (data.drop i1.toNat) i1.toNat []
      some (i2, st.push (String.mk v) atoken.WORD)
  else if c = 'v' then -- var | identifier
    let (b1, i1) := judge_word "var".toList i data 0
    if b1 then some (i1, st.push "var" atoken.VAR)
    else
      let (v, i2) := judge_other_go (data.drop i1.toNat) i1.toNat []
      some (i2, st.push (String.mk v) atoken.WORD)
  else if c = 'b' then -- break | identifier
    let (b1, i1) := judge_word "break".toList i data 0
    if b1 then some (i1, st.push "break" atoken.BREAK)
    else
      let (v, i2) := judge_other_go (data.drop i1.toNat) i1.toNat []
      some (i2, st.push (String.mk v) atoken.WORD)
  else if c = 's' then -- switch | identifier
    let (b1, i1) := judge_word "switch".toList i data 0
    if b1 then some (i1, st.push "switch" atoken.SWITCH)
    else
      let (v, i2) := judge_other_go (data.drop i1.toNat) i1.toNat []
      some (i2, st.push (String.mk v) atoken.WORD)
  else if c = 'c' then -- case | continue | identifier ("char" is commented out in the Go source)
    let (b1, i1) := judge_word "case".toList i data 0
    if b1 then some (i1, st.push "case" atoken.CASE)
    else
      let (b2, i2) := judge_word "continue".toList i1 data 0
      if b2 then some (i2, st.push "continue" atoken.CONTINUE)
      else
        let (v, i3) := judge_other_go (data.drop i2.toNat) i2.toNat []
        some (i3, st.push (String.mk v) atoken.WORD)
  else if c = ';' then some (i, st.push ";" atoken.SEMICOLON)
  else if c = '\x7b' then some (i, st.push "\x7b" atoken.LBRACE)
  else if c = '\x7d' then some (i, st.push "\x7d" atoken.RBRACE)
  else if c = '[' then some (i, st.push "[" atoken.LBRACKET)
  else if c = ']' then some (i, st.push "[" atoken.RBRACKET) -- sic: the Go source pushes Value "[" for ']'
  else if c = '(' then some (i, st.push "(" atoken.LP)
  else if c = ')' then some (i, st.push ")" atoken.RP)
  else if c = ',' then some (i, st.push "," atoken.COMMA)
  else if c = ':' then some (i, st.push ":" atoken.COLON)
  else if c = '+' then -- + | ++ | +=
    let i1 := i + 1
    if (data.length : Int) ≤ i1 then some (i1, st)
    else match ridx data i1 with
    | none => some (i1, st)
    | some c1 =>
      if c1 = '+' then some (i1, st.push "++" atoken.ADDSELF)
      else if c1 = '=' then some (i1, st.push "+=" atoken.COMPOSITE_ADD)
      else some (i1 - 1, st.push "+" atoken.ADD)
  else if c = '-' then -- - | -- | -= | ->
    let i1 := i + 1
    if (data.length : Int) ≤ i1 then some (i1, st)
    else match ridx data i1 with
    | none => some (i1, st)
    | some c1 =>
      if c1 = '-' then some (i1, st.push "--" atoken.SUBSELF)
      else if c1 = '=' then some (i1, st.push "-=" atoken.COMPOSITE_SUB)
      else if c1 = '>' then some (i1, st.push "->" atoken.CASTING)
      else some (i1 - 1, st.push "-" atoken.SUB)
  else if c = '*' then -- * | *=
    let i1 := i + 1
    if (data.length : Int) ≤ i1 then some (i1, st)
    else match ridx data i1 with
    | none => some (i1, st)
    | some c1 =>
      if c1 = '=' then some (i1, st.push "*=" atoken.COMPOSITE_MUL)
      else some (i1 - 1, st.push "*" atoken.MUL)
  else if c = '/' then -- / | /=
    let i1 := i + 1
    if (data.length : Int) ≤ i1 then some (i1, st)
    else match ridx data i1 with
    | none => some (i1, st)
    | some c1 =>
      if c1 = '=' then some (i1, st.push "/=" atoken.COMPOSITE_DIV)
      else some (i1 - 1, st.push "/" atoken.DIV)
  else if c = '^' then some (i, st.push "^" atoken.POWER)
  else if c = '!' then -- ! | != (note: the Go code does not advance i before peeking, so it compares '!' itself)
    if (data.length : Int) ≤ i then some (i, st)
    else if c = '=' then some (i, st.push "!=" atoken.NOEQ)
    else some (i - 1, st.push "!" atoken.NOT)
  else if c = '.' then some (i, st.push "." atoken.QUOTE)
  else if c = '>' then -- > | >=
    let i1 := i + 1
    if (data.length : Int) ≤ i1 then some (i1, st)
    else match ridx data i1 with
    | none => some (i1, st)
    | some c1 =>
      if c1 = '=' then some (i1, st.push ">=" atoken.GTEQ)
      else some (i1 - 1, st.push ">" atoken.GT)
  else if c = '<' then -- < | <=
    let i1 := i + 1
    if (data.length : Int) ≤ i1 then some (i1, st)
    else match ridx data i1 with
    | none => some (i1, st)
    | some c1 =>
      if c1 = '=' then some (i1, st.push "<=" atoken.LTEQ)
      else some (i1 - 1, st.push "<" atoken.LT)
  else if c = '=' then -- = | ==
    let i1 := i + 1
    if (data.length : Int) ≤ i1 then some (i1, st)
    else match ridx data i1 with
    | none => some (i1, st)
    | some c1 =>
      if c1 = '=' then some (i1, st.push "==" atoken.EQ)
      else some (i1 - 1, st.push "=" atoken.ASSIGMENT)
  else if c = '|' then -- | | ||
    let i1 := i + 1
    if (data.length : Int) ≤ i1 then some (i1, st)
    else match ridx data i1 with
    | none => some (i1, st)
    | some c1 =>
      if c1 = '|' then some (i1, st.push "||" atoken.PERHAPS)
      else some (i1 - 1, st.push "|" atoken.OR)
  else if c = '&' then -- & | &&
    let i1 := i + 1
    if (data.length : Int) ≤ i1 then some (i1, st)
    else match ridx data i1 with
    | none => some (i1, st)
    | some c1 =>
      if c1 = '&' then some (i1, st.push "&&" atoken.ALSO)
      else some (i1 - 1, st.push "&" atoken.AND)
  else if c = Char.ofNat 96 then some (i, st.push (String.mk [Char.ofNat 96]) atoken.ESCAPE)
  else if c = '%' then some (i, st.push "%" atoken.MOD)
  else if c = '~' then some (i, st.push "~" atoken.RAND)
  else if c = '\t' then some (judge_space_go (data.drop i.toNat) i.toNat, st)
  else if c = ' ' then some (judge_space_go (data.drop i.toNat) i.toNat, st)
  else if c = '\n' then
    some (i, { st.push "\\n" atoken.EOF with Line := st.Line + 1, Column := 0 })
  else if c = '\x0d' then -- carriage return: \r\n | \r
    let i1 := i + 1
    if (data.length : Int) ≤ i1 then some (i1, st)
    else match ridx data i1 with
    | none => some (i1, st)
    | some c1 =>
      if c1 = '\n' then
        some (i1, { st.push "\\r\\b" atoken.EOF with Line := st.Line + 1, Column := 0 })
      else
        some (i1 - 1, { st.push "\\r" atoken.EOF with Line := st.Line + 1, Column := 0 })
  else if c = '"' then
    match judge_string_go (data.drop i.toNat) i.toNat [] 0 st.Line st.Column with
    | .panic => none
    | .ok v errs idx =>
        some (idx, ({ st with errors := st.errors ++ errs }).push (String.mk v) atoken.STRING)
  else -- default: digits, identifiers, or an illegal token
    if '0' ≤ c && c ≤ '9' then
      let (v, errs, idx) := judge_number_go (data.drop i.toNat) i.toNat [] 0 st.Line st.Column
      some (idx, ({ st with errors := st.errors ++ errs }).push (String.mk v) atoken.NUMBER)
    else if judge_symbol c then
      let (v, idx) := judge_other_go (data.drop i.toNat) i.toNat []
      some (idx, st.push (String.mk v) atoken.WORD)
    else
      some (i, st.pushE ⟨st.Line, st.Column, "illegal token \x27" ++ String.mk [c] ++ "\x27"⟩)

/-- Result of the scan loop: normal completion, Go runtime panic, or
insufficient fuel for the (not obviously terminating) loop. -/
inductive ScanResult where
  | ok (st : ScanState)
  | panic (st : ScanState)
  | fuelOut (st : ScanState)
deriving DecidableEq, Repr

/-- The main loop of `ReadString`: at each iteration, either push the `End`
token and stop, or run one `switch` iteration, then add
`i - tmp_index + 1` to the column and increment `i`. -/
def scan_loop (data : List Char) : Nat → Int → ScanState → ScanResult
  | 0, _, st => .fuelOut st
  | fuel + 1, i, st =>
      if (data.length : Int) ≤ i then .ok (st.push "End" atoken.EOF)
      else
        match ridx data i with
        | none => .panic st
        | some c =>
            match scan_case data i c st with
            | none => .panic st
            | some (i2, st2) =>
                scan_loop data fuel (i2 + 1) { st2 with Column := st2.Column + (i2 - i) + 1 }

/-- Outcome of `ATokenList.ReadString` as seen by the pipeline: on a
completed scan, the error batch is reported and the process exits
(`.halted`) iff the error list is nonempty, otherwise the token stream is
handed to the parser (`.proceeded`). -/
inductive ReadOutcome where
  | halted (errors : List ALexError) (tokens : List AToken)
  | proceeded (tokens : List AToken)
  | panicked
  | fuelOut
deriving DecidableEq, Repr

/-- Initial `ATokenList` state (from `Init`): `Line = 1`, `Column = 1`. -/
def initScanState : ScanState := ⟨[], [], 1, 1⟩

def ReadString (s : String) (fuel : Nat) : ReadOutcome :=
  match scan_loop s.toList fuel 0 initScanState with
  | .ok st => if 0 < st.errors.length then .halted st.errors st.tokens else .proceeded st.tokens
  | .panic _ => .panicked
  | .fuelOut _ => .fuelOut

/-! ### `AST_Number` (aparser): a wrapper around Go's `math/big.Rat`,
modelled by `ℚ`.

`Init` creates `big.NewRat(0, 1)` and then calls `Rat.SetString` on the
literal text; `SetString` is the Go standard library's exact decimal parse,
embedded here for the decimal shapes `digits`, `digits.digits` the tokenizer
produces (on a malformed literal Go's `SetString` fails and the wrapped
value stays unspecified; we keep the initial 0). -/

def digitChar (c : Char) : Option Nat :=
  if '0' ≤ c && c ≤ '9' then some (c.toNat - 48) else none

def digitsVal (cs : List Char) : Option Nat :=
  cs.foldl
    (fun acc c =>
      match acc, digitChar c with
      | some a, some d => some (a * 10 + d)
      | _, _ => none)
    (some 0)

def SetString (s : String) : Option ℚ :=
  match s.toList.splitOn '.' with
  | [ip] => if ip.isEmpty then none else (digitsVal ip).map (fun n => (n : ℚ))
  | [ip, fp] =>
      if ip.isEmpty && fp.isEmpty then none
      else
        match digitsVal ip, digitsVal fp with
        | some n, some f => some ((n : ℚ) + (f : ℚ) / ((10 : ℚ) ^ fp.length))
        | _, _ => none
  | _ => none

def New_ASTNumber (s : String) : ℚ := (SetString s).getD 0

namespace ASTNumber

/-- `AST_Number.Add` (delegates to `big.Rat.Add`). -/
def Add (a b : ℚ) : ℚ := a + b

/-- `AST_Number.Sub` (delegates to `big.Rat.Sub`). -/
def Sub (a b : ℚ) : ℚ := a - b

/-- `AST_Number.Mul` (delegates to `big.Rat.Mul`). -/
def Mul (a b : ℚ) : ℚ := a * b

/-- `AST_Number.Div` (delegates to `big.Rat.Quo`, the exact quotient;
Go panics on a zero divisor, modelled by `none`). -/
def Div (a b : ℚ) : Option ℚ := if b = 0 then none else some (a / b)

end ASTNumber

/-- Closed terms over `AST_Number` values: a numeric literal parsed by
`New_ASTNumber` combined with the four arithmetic methods. -/
inductive NumExpr where
  | lit (s : String)
  | add (a b : NumExpr)
  | sub (a b : NumExpr)
  | mul (a b : NumExpr)
  | div (a b : NumExpr)

def NumExpr.eval : NumExpr → Option ℚ
  | .lit s => some (New_ASTNumber s)
  | .add a b => do pure (ASTNumber.Add (← a.eval) (← b.eval))
  | .sub a b => do pure (ASTNumber.Sub (← a.eval) (← b.eval))
  | .mul a b => do pure (ASTNumber.Mul (← a.eval) (← b.eval))
  | .div a b => do ASTNumber.Div (← a.eval) (← b.eval)

/-! ### The `aparser` AST-type constants and expression AST -/

namespace aparser

def NUMBER : Nat := 1
def BOOL : Nat := 2
def SELFOPERATION_ADDSELF : Nat := 3
def SELFOPERATION_SUBSELF : Nat := 4
def CALLFUNC : Nat := 5
def VAR : Nat := 6
def ARITHMETICEXPRESSION : Nat := 7
def ADD : Nat := 8
def SUB : Nat := 9
def MUL : Nat := 10
def DIV : Nat := 11
def POWER : Nat := 12
def MOD : Nat := 13
def RAND : Nat := 14
def STRING : Nat := 15
def CHAR : Nat := 16

end aparser

/-! The three expression AST node structs of `aparser` (nil pointers are
`Option`; the Go field `Type` is renamed `Ty`).  `AST_CallFuncStatement`
holds a `ReturnValueList` pointer and is in practice never populated by the
parser. -/

mutual

inductive AST_Arithmetic_Expression where
  | mk (Ty : Nat) (Value_Term : Option AST_Arithmetic_Expression_Term)
      (Value_Exp : Option AST_Arithmetic_Expression)

inductive AST_Arithmetic_Expression_Term where
  | mk (Ty : Nat) (Value_Term : Option AST_Arithmetic_Expression_Term)
      (Value_Factor : Option AST_Arithmetic_Expression_Factor)

inductive AST_Arithmetic_Expression_Factor where
  | mk (Ty : Nat) (Value_Number : Option ℚ) (Value_Char : Char) (Value_Bool : Bool)
      (Value_CallFunc : Option AST_CallFuncStatement)
      (Value_Arithmetic_Expression : Option AST_Arithmetic_Expression)
      (Value_VarWord : String) (Line : Int)

inductive AST_CallFuncStatement where
  | mk (ReturnValueList : Option AST_Arithmetic_Expression)

end

/-! ### `CheckType` (aparser)

`os.Exit(1)` after one of the three "number cannot be combined with …"
messages becomes an `Except` error; a `CheckType` call on a nil node pointer
(a Go nil dereference) is `.nilDeref`. -/

inductive CTErr where
  | numBool
  | numString
  | numChar
  | nilDeref
deriving DecidableEq, Repr

mutual

def AST_Arithmetic_Expression.CheckType : AST_Arithmetic_Expression → Except CTErr Nat
  | .mk Ty vt ve =>
      if Ty = 0 ∧ ve.isNone then
        match vt with
        | some t => t.CheckType
        | none => .error .nilDeref
      else
        match vt with
        | none => .error .nilDeref
        | some t => do
            let Type1 ← t.CheckType
            match ve with
            | none => .error .nilDeref
            | some e => do
                let Type2 ← e.CheckType
                if (Type1 = aparser.BOOL ∧ Type2 = aparser.NUMBER) ∨
                    (Type1 = aparser.NUMBER ∧ Type2 = aparser.BOOL) then
                  .error .numBool
                else if (Type1 = aparser.STRING ∧ Type2 = aparser.NUMBER) ∨
                    (Type1 = aparser.NUMBER ∧ Type2 = aparser.STRING) then
                  .error .numString
                else if (Type1 = aparser.CHAR ∧ Type2 = aparser.NUMBER) ∨
                    (Type1 = aparser.NUMBER ∧ Type2 = aparser.CHAR) then
                  .error .numChar
                else
                  .ok Type1

def AST_Arithmetic_Expression_Term.CheckType : AST_Arithmetic_Expression_Term → Except CTErr Nat
  | .mk Ty vt vf =>
      if Ty = 0 ∧ vt.isNone then
        match vf with
        | some f => f.CheckType
        | none => .error .nilDeref
      else
        match vf with
        | none => .error .nilDeref
        | some f => do
            let Type1 ← f.CheckType
            match vt with
            | none => .error .nilDeref
            | some t => do
                let Type2 ← t.CheckType
                if (Type1 = aparser.BOOL ∧ Type2 = aparser.NUMBER) ∨
                    (Type1 = aparser.NUMBER ∧ Type2 = aparser.BOOL) then
                  .error .numBool
                else if (Type1 = aparser.STRING ∧ Type2 = aparser.NUMBER) ∨
                    (Type1 = aparser.NUMBER ∧ Type2 = aparser.STRING) then
                  .error .numString
                else if (Type1 = aparser.CHAR ∧ Type2 = aparser.NUMBER) ∨
                    (Type1 = aparser.NUMBER ∧ Type2 = aparser.CHAR) then
                  .error .numChar
                else
                  .ok Type1

def AST_Arithmetic_Expression_Factor.CheckType : AST_Arithmetic_Expression_Factor → Except CTErr Nat
  | .mk Ty _ _ _ _ vae _ _ =>
      if Ty = aparser.ARITHMETICEXPRESSION then
        match vae with
        | some e => e.CheckType
        | none => .error .nilDeref
      else
        .ok Ty

end

/-! ### The recursive-descent parser (aparser, `AParser` methods)

Every grammar procedure drives the shared token cursor.  `PushError`
followed by `os.Exit(1)` becomes the `.exited` abort; dereferencing the nil
token returned by `GetToken` past the end of the stream (or the nil cursor
element inside `BackToken`) becomes `.nilToken`.  The procedures are
mutually recursive through parenthesised sub-expressions, so they take a
fuel argument; `.fuelOut` only signals exhausted fuel. -/

structure AParserError where
  Line : Int
  Column : Int
  File : String
  error_info : String
deriving DecidableEq, Repr

inductive PAbort where
  | exited (e : AParserError)
  | nilToken
  | fuelOut
deriving DecidableEq, Repr

/-- `s.AToken.GetToken()` immediately followed by a field access of the
returned token (every parser call site reads `.Type` right away, so a nil
token is a panic). -/
def pGetToken (c : Cursor) : Except PAbort (AToken × Cursor) :=
  match c.GetToken with
  | (some t, c2) => .ok (t, c2)
  | (none, _) => .error .nilToken

/-- `s.AToken.BackToken()`: the Go method dereferences the element it moved
to while building its return value, so a nil element is a panic. -/
def pBackToken (c : Cursor) : Except PAbort Cursor :=
  match c.BackToken with
  | (some _, c2) => .ok c2
  | (none, _) => .error .nilToken

/-- The right-leaning chain that the mutation loop of
`Arithmetic_Expression` builds: `result` starts as a wrapper around the
first term, and each `+`/`-` iteration writes the operator tag into the
current tail node and appends a fresh wrapper. -/
def buildExpChain (t0 : AST_Arithmetic_Expression_Term) :
    List (Nat × AST_Arithmetic_Expression_Term) → AST_Arithmetic_Expression
  | [] => .mk 0 (some t0) none
  | (op, t) :: rest => .mk op (some t0) (some (buildExpChain t rest))

/-- The corresponding chain for `Arithmetic_Expression_Term`. -/
def buildTermChain (f0 : AST_Arithmetic_Expression_Factor) :
    List (Nat × AST_Arithmetic_Expression_Factor) → AST_Arithmetic_Expression_Term
  | [] => .mk 0 none (some f0)
  | (op, f) :: rest => .mk op (some (buildTermChain f rest)) (some f0)

mutual

/-- `AParser.Statement`. -/
def Statement (file : String) : Nat → Cursor → Except PAbort (Bool × Cursor)
  | 0, _ => .error .fuelOut
  | fuel + 1, c => do
    let (token, c) ← pGetToken c
    let c ← pBackToken c
    if token.Ty = atoken.FUNC then
      let (_, c) ← FuncStatement file fuel c
      .ok (true, c)
    else if token.Ty = atoken.VAR then
      let (_, c) ← VarStatement file fuel c
      .ok (true, c)
    else if token.Ty = atoken.LP then
      let (_, c) ← BlockStatement file fuel c
      .ok (true, c)
    else if token.Ty = atoken.WORD then
      let (_, c) ← pGetToken c
      let (s_token, c) ← pGetToken c
      if s_token.Ty = atoken.LP then
        let c ← pBackToken c
        let c ← pBackToken c
        let (_, c) ← CallFuncStatement file fuel c
        .ok (true, c)
      else if s_token.Ty = atoken.ASSIGMENT ∨ s_token.Ty = atoken.COMMA then
        let c ← pBackToken c
        let c ← pBackToken c
        let (_, c) ← AssigmentStatement file fuel c
        .ok (true, c)
      else
        .ok (true, c)
    else if token.Ty = atoken.EOF then
      .ok (true, c)
    else if token.Ty = atoken.FOR then
      let (_, c) ← ForStatement file fuel c
      .ok (true, c)
    else if token.Ty = atoken.IF then
      let (_, c) ← IFStatement file fuel c
      .ok (true, c)
    else
      .error (.exited ⟨token.Line, token.Column, file,
        "unexpected " ++ token.Value ++ " expecting \x27func\x27 ... ->Statement"⟩)

/-- `AParser.FuncStatement`. -/
def FuncStatement (file : String) : Nat → Cursor → Except PAbort (Unit × Cursor)
  | 0, _ => .error .fuelOut
  | fuel + 1, c => do
    let (t1, c) ← pGetToken c
    if t1.Ty = atoken.FUNC then
      let (t2, c) ← pGetToken c
      if t2.Ty = atoken.WORD then
        let (t3, c) ← pGetToken c
        if t3.Ty = atoken.LP then
          let (_, c) ← FuncStatement_Define file fuel c
          let (t4, c) ← pGetToken c
          if t4.Ty = atoken.RP then
            let (t5, c) ← pGetToken c
            if t5.Ty = atoken.CASTING then
              let (_, c) ← FuncReturnType file fuel c
              BlockStatement file fuel c
            else
              .error (.exited ⟨t4.Line, t4.Column, file,
                "unexpected " ++ t4.Value ++ " expecting \x27->(CASTRING)\x27 ->FuncStatement"⟩)
          else
            .error (.exited ⟨t4.Line, t4.Column, file,
              "unexpected " ++ t4.Value ++ " expecting \x27)\x27 ->FuncStatement"⟩)
        else
          .error (.exited ⟨t3.Line, t3.Column, file,
            "unexpected " ++ t3.Value ++ " expecting \x27(\x27 ->FuncStatement"⟩)
      else
        .error (.exited ⟨t2.Line, t2.Column, file,
          "unexpected " ++ t2.Value ++ " expecting \x27WORD\x27 ->FuncStatement"⟩)
    else
      .error (.exited ⟨t1.Line, t1.Column, file,
        "unexpected " ++ t1.Value ++ " expecting \x27func\x27 ->FUncStatement"⟩)

/-- `AParser.FuncReturnType`. -/
def FuncReturnType (file : String) : Nat → Cursor → Except PAbort (Unit × Cursor)
  | 0, _ => .error .fuelOut
  | fuel + 1, c => do
    let (_, c) ← FuncReturnType_Factor file fuel c
    FuncReturnType_loop file fuel c

/-- The `for` loop inside `AParser.FuncReturnType`. -/
def FuncReturnType_loop (file : String) : Nat → Cursor → Except PAbort (Unit × Cursor)
  | 0, _ => .error .fuelOut
  | fuel + 1, c => do
    let (token, c) ← pGetToken c
    if token.Ty ≠ atoken.COMMA then
      let c ← pBackToken c
      .ok ((), c)
    else
      let (_, c) ← FuncReturnType_Factor file fuel c
      FuncReturnType_loop file fuel c

/-- `AParser.FuncReturnType_Factor`. -/
def FuncReturnType_Factor (file : String) : Nat → Cursor → Except PAbort (Unit × Cursor)
  | 0, _ => .error .fuelOut
  | _ + 1, c => do
    let (token, c) ← pGetToken c
    if token.Ty = atoken.WORD then
      .ok ((), c)
    else
      .error (.exited ⟨token.Line, token.Column, file,
        "unexpected " ++ token.Value ++ " expecting \x27Type\x27 ->FuncReturnType_Factor"⟩)

/-- `AParser.FuncStatement_Define`. -/
def FuncStatement_Define (file : String) : Nat → Cursor → Except PAbort (Unit × Cursor)
  | 0, _ => .error .fuelOut
  | fuel + 1, c => do
    let (_, c) ← FuncStatement_Define_Factor file fuel c
    TMP_FuncStatement_Define file fuel c

/-- `AParser.TMP_FuncStatement_Define`. -/
def TMP_FuncStatement_Define (file : String) : Nat → Cursor → Except PAbort (Unit × Cursor)
  | 0, _ => .error .fuelOut
  | fuel + 1, c => do
    let (token, c) ← pGetToken c
    if token.Ty = atoken.COMMA then
      let (_, c) ← FuncStatement_Define_Factor file fuel c
      TMP_FuncStatement_Define file fuel c
    else
      let c ← pBackToken c
      .ok ((), c)

/-- `AParser.FuncStatement_Define_Factor`. -/
def FuncStatement_Define_Factor (file : String) : Nat → Cursor → Except PAbort (Unit × Cursor)
  | 0, _ => .error .fuelOut
  | _ + 1, c => do
    let (t1, c) ← pGetToken c
    if t1.Ty = atoken.VAR then
      let (t2, c) ← pGetToken c
      if t2.Ty = atoken.WORD then
        let (t3, c) ← pGetToken c
        if t3.Ty = atoken.CASTING then
          let (t4, c) ← pGetToken c
          if t4.Ty = atoken.WORD then
            .ok ((), c)
          else
            .error (.exited ⟨t4.Line, t4.Column, file,
              "unexpected " ++ t4.Value ++ " expecting \x27WORD\x27 ->FuncStatement_Define_Factor"⟩)
        else
          .error (.exited ⟨t3.Line, t3.Column, file,
            "unexpected " ++ t3.Value ++ " expecting \x27CASTING\x27 ->FuncStatement_Define_Factor"⟩)
      else
        .error (.exited ⟨t2.Line, t2.Column, file,
          "unexpected " ++ t2.Value ++ " expecting \x27WORD\x27 ->FuncStatement_Define_Factor"⟩)
    else
      let c ← pBackToken c
      .ok ((), c)

/-- `AParser.BreakStatement`. -/
def BreakStatement (file : String) : Nat → Cursor → Except PAbort (Unit × Cursor)
  | 0, _ => .error .fuelOut
  | _ + 1, c => do
    let (t1, c) ← pGetToken c
    if t1.Ty = atoken.BREAK then
      .ok ((), c)
    else
      .error (.exited ⟨t1.Line, t1.Column, file,
        "unexpected " ++ t1.Value ++ " expecting \x27break\x27 ->BreakStatement"⟩)

/-- `AParser.ContinueStatement`. -/
def ContinueStatement (file : String) : Nat → Cursor → Except PAbort (Unit × Cursor)
  | 0, _ => .error .fuelOut
  | _ + 1, c => do
    let (t1, c) ← pGetToken c
    if t1.Ty = atoken.CONTINUE then
      .ok ((), c)
    else
      .error (.exited ⟨t1.Line, t1.Column, file,
        "unexpected " ++ t1.Value ++ " expecting \x27continue\x27 ->ContinueStatement"⟩)

/-- `AParser.FuncStatement_Return` (a non-`return` first token is consumed
and the procedure simply returns). -/
def FuncStatement_Return (file : String) : Nat → Cursor → Except PAbort (Unit × Cursor)
  | 0, _ => .error .fuelOut
  | fuel + 1, c => do
    let (t1, c) ← pGetToken c
    if t1.Ty = atoken.RETURN then
      let (t2, c) ← pGetToken c
      if t2.Ty = atoken.EOF then
        .ok ((), c)
      else do
        let c ← pBackToken c
        let (_, c) ← Arithmetic_Expression file fuel c
        FuncStatement_Return_loop file fuel c
    else
      .ok ((), c)

/-- The `for` loop inside `AParser.FuncStatement_Return`. -/
def FuncStatement_Return_loop (file : String) : Nat → Cursor → Except PAbort (Unit × Cursor)
  | 0, _ => .error .fuelOut
  | fuel + 1, c => do
    let (t3, c) ← pGetToken c
    if t3.Ty ≠ atoken.COMMA then
      let c ← pBackToken c
      .ok ((), c)
    else
      let (_, c) ← Arithmetic_Expression file fuel c
      FuncStatement_Return_loop file fuel c

/-- `AParser.AssigmentStatement`. -/
def AssigmentStatement (file : String) : Nat → Cursor → Except PAbort (Unit × Cursor)
  | 0, _ => .error .fuelOut
  | fuel + 1, c => do
    let (t1, c) ← pGetToken c
    if t1.Ty = atoken.WORD then
      let (_, c) ← TMP_AssigmentStatement file fuel c
      let (t2, c) ← pGetToken c
      if t2.Ty = atoken.ASSIGMENT then
        MoreArithmetic_Expression file fuel c
      else
        .error (.exited ⟨t2.Line, t2.Column, file,
          "unexpected " ++ t2.Value ++ " expecting \x27=\x27 ->AssigmentStatement"⟩)
    else
      .error (.exited ⟨t1.Line, t1.Column, file,
        "unexpected " ++ t1.Value ++ " expecting \x27WORD\x27 ->AssigmentStatement"⟩)

/-- `AParser.TMP_AssigmentStatement`. -/
def TMP_AssigmentStatement (file : String) : Nat → Cursor → Except PAbort (Unit × Cursor)
  | 0, _ => .error .fuelOut
  | fuel + 1, c => do
    let (t1, c) ← pGetToken c
    if t1.Ty = atoken.COMMA then
      let (t2, c) ← pGetToken c
      if t2.Ty = atoken.WORD then
        TMP_AssigmentStatement file fuel c
      else
        .error (.exited ⟨t2.Line, t2.Column, file,
          "unexpected " ++ t2.Value ++ " expecting \x27WORD\x27 ->TMP_AssigmentStatement"⟩)
    else
      let c ← pBackToken c
      .ok ((), c)

/-- `AParser.MoreArithmetic_Expression`. -/
def MoreArithmetic_Expression (file : String) : Nat → Cursor → Except PAbort (Unit × Cursor)
  | 0, _ => .error .fuelOut
  | fuel + 1, c => do
    let (_, c) ← Arithmetic_Expression file fuel c
    TMP_MoreArithmetic_Expression file fuel c

/-- `AParser.TMP_MoreArithmetic_Expression` (note: no recursion in the Go
source — at most one further expression is consumed). -/
def TMP_MoreArithmetic_Expression (file : String) : Nat → Cursor → Except PAbort (Unit × Cursor)
  | 0, _ => .error .fuelOut
  | fuel + 1, c => do
    let (token, c) ← pGetToken c
    if token.Ty = atoken.COMMA then
      let (_, c) ← Arithmetic_Expression file fuel c
      .ok ((), c)
    else
      let c ← pBackToken c
      .ok ((), c)

/-- `AParser.IFStatement`. -/
def IFStatement (file : String) : Nat → Cursor → Except PAbort (Unit × Cursor)
  | 0, _ => .error .fuelOut
  | fuel + 1, c => do
    let (t1, c) ← pGetToken c
    if t1.Ty = atoken.IF then
      let (t2, c) ← pGetToken c
      if t2.Ty = atoken.LP then
        let (_, c) ← Boolean_Expression file fuel c
        let (t3, c) ← pGetToken c
        if t3.Ty = atoken.RP then
          let (_, c) ← BlockStatement file fuel c
          IFStatement_ELSE file fuel c
        else
          .error (.exited ⟨t3.Line, t3.Column, file,
            "unexpected " ++ t3.Value ++ " expecting \x27)\x27 ->IFStatement"⟩)
      else
        .error (.exited ⟨t2.Line, t2.Column, file,
          "unexpected " ++ t2.Value ++ " expecting \x27(\x27 ->IFStatement"⟩)
    else
      .error (.exited ⟨t1.Line, t1.Column, file,
        "unexpected " ++ t1.Value ++ " expecting \x27if\x27 ->IFStatement"⟩)

/-- `AParser.IFStatement_ELSE`. -/
def IFStatement_ELSE (file : String) : Nat → Cursor → Except PAbort (Unit × Cursor)
  | 0, _ => .error .fuelOut
  | fuel + 1, c => do
    let (t1, c) ← pGetToken c
    if t1.Ty = atoken.ELSE then
      BlockStatement file fuel c
    else if t1.Ty = atoken.ELSEIF then
      let (t2, c) ← pGetToken c
      if t2.Ty = atoken.LP then
        let (_, c) ← Boolean_Expression file fuel c
        let (t3, c) ← pGetToken c
        if t3.Ty = atoken.RP then
          BlockStatement file fuel c
        else
          .error (.exited ⟨t3.Line, t3.Column, file,
            "unexpected " ++ t3.Value ++ " expecting \x27)\x27 ->IFStatement_ELSE"⟩)
      else
        .error (.exited ⟨t2.Line, t2.Column, file,
          "unexpected " ++ t2.Value ++ " expecting \x27(\x27 ->IFStatement_ELSE"⟩)
    else
      let c ← pBackToken c
      let c ← pBackToken c
      .ok ((), c)

/-- `AParser.VarStatement`. -/
def VarStatement (file : String) : Nat → Cursor → Except PAbort (Unit × Cursor)
  | 0, _ => .error .fuelOut
  | fuel + 1, c => do
    let (t1, c) ← pGetToken c
    if t1.Ty = atoken.VAR then
      let (t2, c) ← pGetToken c
      if t2.Ty = atoken.WORD then
        let (tc, c) ← pGetToken c
        if tc.Ty = atoken.CASTING then
          let (t3, c) ← pGetToken c
          if t3.Ty = atoken.WORD then
            .ok ((), c)
          else
            .error (.exited ⟨t3.Line, t3.Column, file,
              "unexpected " ++ t3.Value ++ " expecting \x27Type\x27 ->VarStatement"⟩)
        else
          let c ← pBackToken c
          let c ← pBackToken c
          AssigmentStatement file fuel c
      else
        .error (.exited ⟨t2.Line, t2.Column, file,
          "unexpected " ++ t2.Value ++ " expecting \x27WORD\x27 ->IFStatement_ELSE"⟩)
    else
      .error (.exited ⟨t1.Line, t1.Column, file,
        "unexpected " ++ t1.Value ++ " expecting \x27var\x27 ->VarStatement"⟩)

/-- `AParser.BlockStatement`. -/
def BlockStatement (file : String) : Nat → Cursor → Except PAbort (Unit × Cursor)
  | 0, _ => .error .fuelOut
  | fuel + 1, c => do
    let (t1, c) ← pGetToken c
    if t1.Ty = atoken.LBRACE then
      let (_, c) ← BlockMain_Statement file fuel c
      let (t2, c) ← pGetToken c
      if t2.Ty = atoken.RBRACE then
        .ok ((), c)
      else
        .error (.exited ⟨t2.Line, t2.Column, file,
          "unexpected " ++ t2.Value ++ " expecting \x27\x7d\x27 ->BlockStatement"⟩)
    else
      .error (.exited ⟨t1.Line, t1.Column, file,
        "unexpected " ++ t1.Value ++ " expecting \x27\x7b\x27 ->BlockStatement"⟩)

/-- `AParser.BlockMain_Statement`. -/
def BlockMain_Statement (file : String) : Nat → Cursor → Except PAbort (Unit × Cursor)
  | 0, _ => .error .fuelOut
  | fuel + 1, c => do
    let (_, c) ← BlockStatement_Factor file fuel c
    TMP_BlockMain_Statement file fuel c

/-- `AParser.TMP_BlockMain_Statement`. -/
def TMP_BlockMain_Statement (file : String) : Nat → Cursor → Except PAbort (Unit × Cursor)
  | 0, _ => .error .fuelOut
  | fuel + 1, c => do
    let (t1, c) ← pGetToken c
    if t1.Ty = atoken.EOF then
      let (b, c) ← BlockStatement_Factor file fuel c
      if b then
        TMP_BlockMain_Statement file fuel c
      else
        .ok ((), c)
    else
      let c ← pBackToken c
      .ok ((), c)

/-- `AParser.BlockStatement_Factor`. -/
def BlockStatement_Factor (file : String) : Nat → Cursor → Except PAbort (Bool × Cursor)
  | 0, _ => .error .fuelOut
  | fuel + 1, c => do
    let (token, c) ← pGetToken c
    let c ← pBackToken c
    if token.Ty = atoken.VAR then
      let (_, c) ← VarStatement file fuel c
      .ok (true, c)
    else if token.Ty = atoken.WORD then
      let (_, c) ← pGetToken c
      let (s_token, c) ← pGetToken c
      if s_token.Ty = atoken.LP then
        let c ← pBackToken c
        let c ← pBackToken c
        let (_, c) ← CallFuncStatement file fuel c
        .ok (true, c)
      else if s_token.Ty = atoken.ASSIGMENT ∨ s_token.Ty = atoken.COMMA then
        let c ← pBackToken c
        let c ← pBackToken c
        let (_, c) ← AssigmentStatement file fuel c
        .ok (true, c)
      else
        .ok (true, c)
    else if token.Ty = atoken.EOF then
      .ok (true, c)
    else if token.Ty = atoken.FOR then
      let (_, c) ← ForStatement file fuel c
      .ok (true, c)
    else if token.Ty = atoken.IF then
      let (_, c) ← IFStatement file fuel c
      .ok (true, c)
    else if token.Ty = atoken.RBRACE then
      .ok (false, c)
    else if token.Ty = atoken.RETURN then
      let (_, c) ← FuncStatement_Return file fuel c
      .ok (true, c)
    else if token.Ty = atoken.CONTINUE then
      let (_, c) ← ContinueStatement file fuel c
      .ok (true, c)
    else if token.Ty = atoken.BREAK then
      let (_, c) ← BreakStatement file fuel c
      .ok (true, c)
    else
      .error (.exited ⟨token.Line, token.Column, file,
        "unexpected " ++ token.Value ++ " expecting \x27func\x27 ... ->BlockStatement_Factor"⟩)

/-- `AParser.CallFuncStatement`. -/
def CallFuncStatement (file : String) : Nat → Cursor → Except PAbort (Unit × Cursor)
  | 0, _ => .error .fuelOut
  | fuel + 1, c => do
    let (t1, c) ← pGetToken c
    if t1.Ty = atoken.WORD then
      let (t2, c) ← pGetToken c
      if t2.Ty = atoken.LP then
        let (t4, c) ← pGetToken c
        if t4.Ty = atoken.RP then
          .ok ((), c)
        else do
          let c ← pBackToken c
          let (_, c) ← CallFuncStatement_Arg file fuel c
          let (t3, c) ← pGetToken c
          if t3.Ty = atoken.RP then
            .ok ((), c)
          else
            .error (.exited ⟨t3.Line, t3.Column, file,
              "unexpected " ++ t3.Value ++ " expecting \x27\x7d\x27 ->CallFuncStatement"⟩)
      else
        .error (.exited ⟨t2.Line, t2.Column, file,
          "unexpected " ++ t2.Value ++ " expecting \x27\x7b\x27 ->CallFuncStatement"⟩)
    else
      .error (.exited ⟨t1.Line, t1.Column, file,
        "unexpected " ++ t1.Value ++ " expecting \x27WORD\x27 ->CallFuncStatement"⟩)

/-- `AParser.CallFuncStatement_Arg`. -/
def CallFuncStatement_Arg (file : String) : Nat → Cursor → Except PAbort (Unit × Cursor)
  | 0, _ => .error .fuelOut
  | fuel + 1, c => do
    let (_, c) ← Arithmetic_Expression file fuel c
    Tmp_CallFuncStatement_Arg file fuel c

/-- `AParser.Tmp_CallFuncStatement_Arg`. -/
def Tmp_CallFuncStatement_Arg (file : String) : Nat → Cursor → Except PAbort (Unit × Cursor)
  | 0, _ => .error .fuelOut
  | fuel + 1, c => do
    let (token, c) ← pGetToken c
    if token.Ty = atoken.COMMA then
      let (_, c) ← Arithmetic_Expression file fuel c
      Tmp_CallFuncStatement_Arg file fuel c
    else
      let c ← pBackToken c
      .ok ((), c)

/-- `AParser.ForStatement`. -/
def ForStatement (file : String) : Nat → Cursor → Except PAbort (Unit × Cursor)
  | 0, _ => .error .fuelOut
  | fuel + 1, c => do
    let (t1, c) ← pGetToken c
    if t1.Ty = atoken.FOR then
      let (t2, c) ← pGetToken c
      if t2.Ty = atoken.LP then
        let (ta, c) ← pGetToken c
        let c ← pBackToken c
        let (_, c) ←
          if ta.Ty = atoken.SEMICOLON then .ok ((), c)
          else ForStatement_Assigment file fuel c
        let (t3, c) ← pGetToken c
        if t3.Ty = atoken.SEMICOLON then do
          let (tb, c) ← pGetToken c
          let c ← pBackToken c
          let (_, c) ←
            if tb.Ty = atoken.SEMICOLON then .ok ((), c)
            else Boolean_Expression file fuel c
          let (t4, c) ← pGetToken c
          if t4.Ty = atoken.SEMICOLON then do
            let (tc, c) ← pGetToken c
            let c ← pBackToken c
            let (_, c) ←
              if tc.Ty = atoken.RP then .ok ((), c)
              else ForStatement_Assigment file fuel c
            let (t5, c) ← pGetToken c
            if t5.Ty = atoken.RP then
              BlockStatement file fuel c
            else
              .error (.exited ⟨t5.Line, t5.Column, file,
                "unexpected " ++ t5.Value ++ " expecting \x27)\x27 ->ForStatement"⟩)
          else
            .error (.exited ⟨t4.Line, t4.Column, file,
              "unexpected " ++ t4.Value ++ " expecting \x27WORD\x27 ->ForStatement"⟩)
        else
          .error (.exited ⟨t3.Line, t3.Column, file,
            "unexpected " ++ t3.Value ++ " expecting \x27WORD\x27 ->ForStatement"⟩)
      else
        .error (.exited ⟨t2.Line, t2.Column, file,
          "unexpected " ++ t2.Value ++ " expecting \x27WORD\x27 ->ForStatement"⟩)
    else
      .error (.exited ⟨t1.Line, t1.Column, file,
        "unexpected " ++ t1.Value ++ " expecting \x27for\x27 ->ForStatement"⟩)

/-- `AParser.ForStatement_Assigment`. -/
def ForStatement_Assigment (file : String) : Nat → Cursor → Except PAbort (Unit × Cursor)
  | 0, _ => .error .fuelOut
  | fuel + 1, c => do
    let (token, c) ← pGetToken c
    if token.Ty = atoken.VAR then
      let c ← pBackToken c
      VarStatement file fuel c
    else
      let c ← pBackToken c
      AssigmentStatement file fuel c

/-- `AParser.Boolean_Expression`. -/
def Boolean_Expression (file : String) : Nat → Cursor → Except PAbort (Unit × Cursor)
  | 0, _ => .error .fuelOut
  | fuel + 1, c => do
    let (_, c) ← Boolean_Expression_Factor file fuel c
    Boolean_Expression_loop file fuel c

/-- The `for` loop inside `AParser.Boolean_Expression` (its final
`if/elseif/else` ladder on the already-tested token kind is dead code). -/
def Boolean_Expression_loop (file : String) : Nat → Cursor → Except PAbort (Unit × Cursor)
  | 0, _ => .error .fuelOut
  | fuel + 1, c => do
    let (token, c) ← pGetToken c
    if token.Ty ≠ atoken.ALSO ∧ token.Ty ≠ atoken.PERHAPS then
      let c ← pBackToken c
      .ok ((), c)
    else
      let (_, c) ← Boolean_Expression_Factor file fuel c
      Boolean_Expression_loop file fuel c

/-- `AParser.Boolean_Expression_Factor`. -/
def Boolean_Expression_Factor (file : String) : Nat → Cursor → Except PAbort (Unit × Cursor)
  | 0, _ => .error .fuelOut
  | fuel + 1, c => do
    let (t1, c) ← pGetToken c
    if t1.Ty = atoken.LP then
      let (_, c) ← Boolean_Expression file fuel c
      let (t2, c) ← pGetToken c
      if t2.Ty = atoken.RP then
        .ok ((), c)
      else
        .error (.exited ⟨t1.Line, t1.Column, file,
          "unexpected " ++ t1.Value ++ " expecting \x27)\x27 ->Boolean_Expression_Factor"⟩)
    else do
      let c ← pBackToken c
      let (_, c) ← Arithmetic_Expression file fuel c
      let (s_token, c) ← pGetToken c
      if s_token.Ty = atoken.GT ∨ s_token.Ty = atoken.LT ∨
          s_token.Ty = atoken.GTEQ ∨ s_token.Ty = atoken.LTEQ then
        let (_, c) ← Arithmetic_Expression file fuel c
        .ok ((), c)
      else
        .error (.exited ⟨t1.Line, t1.Column, file,
          "unexpected " ++ t1.Value ++ " expecting \x27(\x27 || \x27>\x27 || \x27<\x27 || \x27>=\x27 || \x27<=\x27 ->Boolean_Expression_Factor"⟩)

/-- `AParser.Arithmetic_Expression`. -/
def Arithmetic_Expression (file : String) : Nat → Cursor → Except PAbort (AST_Arithmetic_Expression × Cursor)
  | 0, _ => .error .fuelOut
  | fuel + 1, c => do
    let (t0, c) ← Arithmetic_Expression_Term file fuel c
    let (pairs, c) ← AExp_loop file fuel c
    .ok (buildExpChain t0 pairs, c)

/-- The `+`/`-` chain loop inside `AParser.Arithmetic_Expression`,
returning the (operator tag, term) pairs in order. -/
def AExp_loop (file : String) : Nat → Cursor → Except PAbort (List (Nat × AST_Arithmetic_Expression_Term) × Cursor)
  | 0, _ => .error .fuelOut
  | fuel + 1, c => do
    let (token, c) ← pGetToken c
    if token.Ty ≠ atoken.ADD ∧ token.Ty ≠ atoken.SUB then
      let c ← pBackToken c
      .ok ([], c)
    else do
      let (term, c) ← Arithmetic_Expression_Term file fuel c
      let op := if token.Ty = atoken.ADD then aparser.ADD else aparser.SUB
      let (rest, c) ← AExp_loop file fuel c
      .ok ((op, term) :: rest, c)

/-- `AParser.Arithmetic_Expression_Term`. -/
def Arithmetic_Expression_Term (file : String) : Nat → Cursor → Except PAbort (AST_Arithmetic_Expression_Term × Cursor)
  | 0, _ => .error .fuelOut
  | fuel + 1, c => do
    let (f0, c) ← Arithmetic_Expression_Factor file fuel c
    let (pairs, c) ← ATerm_loop file fuel c
    .ok (buildTermChain f0 pairs, c)

/-- The `*`/`/`/`^`/`%`/`~` chain loop inside
`AParser.Arithmetic_Expression_Term`. -/
def ATerm_loop (file : String) : Nat → Cursor → Except PAbort (List (Nat × AST_Arithmetic_Expression_Factor) × Cursor)
  | 0, _ => .error .fuelOut
  | fuel + 1, c => do
    let (token, c) ← pGetToken c
    if token.Ty ≠ atoken.MUL ∧ token.Ty ≠ atoken.DIV ∧ token.Ty ≠ atoken.POWER ∧
        token.Ty ≠ atoken.MOD ∧ token.Ty ≠ atoken.RAND then
      let c ← pBackToken c
      .ok ([], c)
    else do
      let (factor, c) ← Arithmetic_Expression_Factor file fuel c
      let op :=
        if token.Ty = atoken.MUL then aparser.MUL
        else if token.Ty = atoken.DIV then aparser.DIV
        else if token.Ty = atoken.POWER then aparser.POWER
        else if token.Ty = atoken.MOD then aparser.MOD
        else aparser.RAND
      let (rest, c) ← ATerm_loop file fuel c
      .ok ((op, factor) :: rest, c)

/-- `AParser.Arithmetic_Expression_Factor`. -/
def Arithmetic_Expression_Factor (file : String) :
    Nat → Cursor → Except PAbort (AST_Arithmetic_Expression_Factor × Cursor)
  | 0, _ => .error .fuelOut
  | fuel + 1, c => do
    let (token, c) ← pGetToken c
    if token.Ty = atoken.NUMBER then
      .ok (.mk aparser.NUMBER (some (New_ASTNumber token.Value)) (Char.ofNat 0) false
        none none "" token.Line, c)
    else if token.Ty = atoken.TRUE then
      .ok (.mk aparser.BOOL none (Char.ofNat 0) true none none "" token.Line, c)
    else if token.Ty = atoken.FALSE then
      .ok (.mk aparser.BOOL none (Char.ofNat 0) false none none "" token.Line, c)
    else if token.Ty = atoken.LP then
      let (e, c) ← Arithmetic_Expression file fuel c
      let (t1, c) ← pGetToken c
      if t1.Ty = atoken.RP then
        .ok (.mk aparser.ARITHMETICEXPRESSION none (Char.ofNat 0) false none (some e)
          "" token.Line, c)
      else
        .error (.exited ⟨t1.Line, t1.Column, file,
          "unexpected " ++ t1.Value ++ " expecting \x27\x7d\x27 ->Arithmetic_Expression_Factor"⟩)
    else if token.Ty = atoken.WORD then
      let (t1, c) ← pGetToken c
      if t1.Ty = atoken.ADDSELF then
        .ok (.mk aparser.SELFOPERATION_ADDSELF none (Char.ofNat 0) false none none
          token.Value token.Line, c)
      else if t1.Ty = atoken.SUBSELF then
        .ok (.mk aparser.SELFOPERATION_SUBSELF none (Char.ofNat 0) false none none
          token.Value token.Line, c)
      else if t1.Ty = atoken.LP then
        let c ← pBackToken c
        let c ← pBackToken c
        let (_, c) ← CallFuncStatement file fuel c
        .ok (.mk aparser.CALLFUNC none (Char.ofNat 0) false none none "" token.Line, c)
      else
        let c ← pBackToken c
        .ok (.mk aparser.VAR none (Char.ofNat 0) false none none token.Value token.Line, c)
    else
      .error (.exited ⟨token.Line, token.Column, file,
        "unexpected " ++ token.Value ++ " expecting \x27num\x27 || \x27WORD\x27 || \x27true\x27 || \x27false\x27 || ->Arithmetic_Expression_Factor"⟩)

end

/-- `AParser.ReadBasicExpression`: run the tokenizer (the process exits if
any lex error was accumulated, and `CheckUp` cannot see parser errors yet),
then parse one arithmetic expression from the front of the token stream.
`none` covers every aborting path. -/
def ReadBasicExpression (s : String) (fuel : Nat) : Option AST_Arithmetic_Expression :=
  match ReadString s fuel with
  | .proceeded tokens =>
      match Arithmetic_Expression "" fuel
          { tokens := tokens, pos := if tokens.length = 0 then none else some 0 } with
      | .ok (e, _) => some e
      | .error _ => none
  | _ => none

deriving instance DecidableEq for Except

/-! ### Concrete data used by the theorems below -/

/-- Two tokens forming a minimal token list for cursor experiments. -/
def cexToken1 : AToken := ⟨1, 1, "a", atoken.WORD⟩

def cexToken2 : AToken := ⟨1, 2, "b", atoken.WORD⟩

/-- The token stream the tokenizer produces for `"1 + 2 ~ 10"`. -/
def C2toks : List AToken :=
  [⟨1, 1, "1", atoken.NUMBER⟩, ⟨1, 3, "+", atoken.ADD⟩, ⟨1, 5, "2", atoken.NUMBER⟩,
   ⟨1, 7, "~", atoken.RAND⟩, ⟨1, 9, "10", atoken.NUMBER⟩, ⟨1, 12, "End", atoken.EOF⟩]

/-- The AST the parser builds for `"1 + 2 ~ 10"`: the root additive node
carries `ADD`, its left operand is the term `1`, and its tail wraps the
multiplicative chain `2 ~ 10`. -/
def C2tree : AST_Arithmetic_Expression :=
  .mk aparser.ADD
    (some (.mk 0 none
      (some (.mk aparser.NUMBER (some (New_ASTNumber "1")) (Char.ofNat 0) false none none "" 1))))
    (some (.mk 0
      (some (.mk aparser.RAND
        (some (.mk 0 none
          (some (.mk aparser.NUMBER (some (New_ASTNumber "10")) (Char.ofNat 0) false none none "" 1))))
        (some (.mk aparser.NUMBER (some (New_ASTNumber "2")) (Char.ofNat 0) false none none "" 1))))
      none))

/-- The token stream the tokenizer produces for `"1 + true"`. -/
def C3toks : List AToken :=
  [⟨1, 1, "1", atoken.NUMBER⟩, ⟨1, 3, "+", atoken.ADD⟩, ⟨1, 5, "true", atoken.TRUE⟩,
   ⟨1, 9, "End", atoken.EOF⟩]

/-- The AST the parser builds for `"1 + true"`. -/
def C3tree : AST_Arithmetic_Expression :=
  .mk aparser.ADD
    (some (.mk 0 none
      (some (.mk aparser.NUMBER (some (New_ASTNumber "1")) (Char.ofNat 0) false none none "" 1))))
    (some (.mk 0
      (some (.mk 0 none (some (.mk aparser.BOOL none (Char.ofNat 0) true none none "" 1))))
      none))

/-- A term node of resolved type `NUMBER` (used to instantiate the
`CheckType` theorems). -/
def wNumTerm : AST_Arithmetic_Expression_Term :=
  .mk 0 none (some (.mk aparser.NUMBER (some (New_ASTNumber "1")) (Char.ofNat 0) false none none "" 1))

/-- An expression node of resolved type `NUMBER`. -/
def wNumExp : AST_Arithmetic_Expression := .mk 0 (some wNumTerm) none

/-- An expression node of resolved type `BOOL`. -/
def wBoolExp : AST_Arithmetic_Expression :=
  .mk 0 (some (.mk 0 none (some (.mk aparser.BOOL none (Char.ofNat 0) true none none "" 1)))) none

/-- The completed scan state for the input `"1"`. -/
def C8state : ScanState :=
  ⟨[⟨1, 1, "1", atoken.NUMBER⟩, ⟨1, 3, "End", atoken.EOF⟩], [], 1, 3⟩

/-- A token stream whose first token is an identifier and whose second token
is neither `(` nor `=` nor `,`. -/
def C10toks : List AToken := [⟨1, 1, "x", atoken.WORD⟩, ⟨1, 3, "End", atoken.EOF⟩]

/-! ### C1: token cursor round trip -/

/-- Claim C1, amended.  For every cursor position `some i` whose successor
element exists (`i + 1 < length`), calling `GetToken` and then `BackToken`
returns the cursor exactly to `some i` and the next `GetToken` re-yields the
same token; moreover the token yielded at a position is a function of the
position alone (`tokens.get? i`), so it does not depend on the path by which
the position was reached.  (The unamended claim fails at the last element:
see the counterexample.) -/
theorem C1_cursor_roundtrip (c : Cursor) (i : Nat) (h : c.pos = some i)
    (hlt : i + 1 < c.tokens.length) :
    ((c.GetToken.2).BackToken.2).pos = c.pos ∧
    (((c.GetToken.2).BackToken.2).GetToken.1 = c.GetToken.1) ∧
    c.GetToken.1 = c.tokens.get? i := by
  simp [Cursor.GetToken, Cursor.BackToken, h, hlt]

/-- Claim C1, counterexample to the unamended statement.  Position
`some 1` (the last element of a two-token list) is reached from the initial
cursor by one `GetToken`; a further `GetToken` moves the iterator to `nil`,
and `BackToken` then jumps to `Back().Prev()` — position `some 0`, not
`some 1`. -/
theorem C1_counterexample :
    ((((Cursor.mk [cexToken1, cexToken2] (some 0)).GetToken.2).GetToken.2).BackToken.2).pos ≠
      ((Cursor.mk [cexToken1, cexToken2] (some 0)).GetToken.2).pos := by decide

/-- Claim C1, witness: the round-trip theorem applied at position `some 0`
of the two-token list. -/
theorem C1_witness :
    (((Cursor.mk [cexToken1, cexToken2] (some 0)).GetToken.2).BackToken.2).pos =
        (Cursor.mk [cexToken1, cexToken2] (some 0)).pos ∧
    ((((Cursor.mk [cexToken1, cexToken2] (some 0)).GetToken.2).BackToken.2).GetToken.1 =
        (Cursor.mk [cexToken1, cexToken2] (some 0)).GetToken.1) ∧
    (Cursor.mk [cexToken1, cexToken2] (some 0)).GetToken.1 =
        [cexToken1, cexToken2].get? 0 :=
  C1_cursor_roundtrip (Cursor.mk [cexToken1, cexToken2] (some 0)) 0 rfl (by decide)

/-! ### C2: precedence of the random-range operator `~` -/

/-- Claim C2.  `ReadBasicExpression` (tokenizer plus
`Arithmetic_Expression`) on `"1 + 2 ~ 10"` returns the tree whose root
additive node is tagged `ADD`, whose left operand is the term `1`, and whose
right operand is the multiplicative chain `2 ~ 10` (tag `RAND` at the term
level) — i.e. the expression groups as `1 + (2 ~ 10)`, never
`(1 + 2) ~ 10`. -/
theorem C2_random_precedence : ReadBasicExpression "1 + 2 ~ 10" 16 = some C2tree := by
  have hs : ReadString "1 + 2 ~ 10" 16 = .proceeded C2toks := by decide
  have hp : Arithmetic_Expression "" 16 ⟨C2toks, some 0⟩ =
      .ok (C2tree, ⟨C2toks, some 4⟩) := rfl
  have hiff : (if C2toks.length = 0 then (none : Option Nat) else some 0) = some 0 := rfl
  simp only [ReadBasicExpression, hs]
  rw [hiff, hp]

/-! ### C3: the forbidden operand-type pairs of `CheckType` -/

/-- Claim C3.  On a binary expression or term node whose children resolve to
`t1` (left) and `t2` (right), `CheckType` aborts with a fatal error (an
`Except.error`, never producing a result type) exactly when the операnd pair
is {NUMBER, BOOL}, {NUMBER, STRING} or {NUMBER, CHAR} in either order; and
the tree parsed from `"1 + true"` checks to the Number/Boolean conflict. -/
theorem C3_forbidden_pairs :
    (∀ (Ty : Nat) (t : AST_Arithmetic_Expression_Term) (e : AST_Arithmetic_Expression)
        (t1 t2 : Nat), t.CheckType = .ok t1 → e.CheckType = .ok t2 →
        ((∃ err, (AST_Arithmetic_Expression.mk Ty (some t) (some e)).CheckType = .error err) ↔
          ((t1 = aparser.NUMBER ∧ (t2 = aparser.BOOL ∨ t2 = aparser.STRING ∨ t2 = aparser.CHAR)) ∨
           (t2 = aparser.NUMBER ∧ (t1 = aparser.BOOL ∨ t1 = aparser.STRING ∨ t1 = aparser.CHAR))))) ∧
    (∀ (Ty : Nat) (t : AST_Arithmetic_Expression_Term) (f : AST_Arithmetic_Expression_Factor)
        (t1 t2 : Nat), f.CheckType = .ok t1 → t.CheckType = .ok t2 →
        ((∃ err, (AST_Arithmetic_Expression_Term.mk Ty (some t) (some f)).CheckType = .error err) ↔
          ((t1 = aparser.NUMBER ∧ (t2 = aparser.BOOL ∨ t2 = aparser.STRING ∨ t2 = aparser.CHAR)) ∨
           (t2 = aparser.NUMBER ∧ (t1 = aparser.BOOL ∨ t1 = aparser.STRING ∨ t1 = aparser.CHAR))))) ∧
    (ReadBasicExpression "1 + true" 16).map AST_Arithmetic_Expression.CheckType =
      some (.error CTErr.numBool) := by
  refine ⟨?_, ?_, ?_⟩
  · intro Ty t e t1 t2 h1 h2
    simp only [AST_Arithmetic_Expression.CheckType, Option.isNone_some, Bool.false_eq_true,
      and_false, if_false, h1, h2, bind, Except.bind]
    split_ifs with hc1 hc2 hc3 <;>
      simp_all [aparser.NUMBER, aparser.BOOL, aparser.STRING, aparser.CHAR] <;> omega
  · intro Ty t f t1 t2 h1 h2
    simp only [AST_Arithmetic_Expression_Term.CheckType, Option.isNone_some, Bool.false_eq_true,
      and_false, if_false, h1, h2, bind, Except.bind]
    split_ifs with hc1 hc2 hc3 <;>
      simp_all [aparser.NUMBER, aparser.BOOL, aparser.STRING, aparser.CHAR] <;> omega
  · have hs : ReadString "1 + true" 16 = .proceeded C3toks := by decide
    have hp : Arithmetic_Expression "" 16 ⟨C3toks, some 0⟩ =
        .ok (C3tree, ⟨C3toks, some 2⟩) := rfl
    have hiff : (if C3toks.length = 0 then (none : Option Nat) else some 0) = some 0 := rfl
    simp only [ReadBasicExpression, hs]
    rw [hiff, hp]
    rfl

/-- Claim C3, witness: a binary `ADD` node over a `NUMBER` term and a `BOOL`
expression is rejected. -/
theorem C3_witness :
    ∃ err, (AST_Arithmetic_Expression.mk aparser.ADD (some wNumTerm) (some wBoolExp)).CheckType =
      .error err :=
  (C3_forbidden_pairs.1 aparser.ADD wNumTerm wBoolExp aparser.NUMBER aparser.BOOL rfl rfl).mpr
    (by decide)

/-! ### C4: `CheckType` resolves to the left-most concrete value's type -/

/-- Claim C4.  On a binary chain node, a successful `CheckType` always
returns the left operand's resolved type (the `Value_Term` child at the
expression level, the `Value_Factor` child at the term level); a node with
operator tag 0 and no tail chain defers to its single child without error;
and a parenthesized-expression factor returns the type of the wrapped
expression. -/
theorem C4_leftmost_type :
    (∀ (Ty : Nat) (t : AST_Arithmetic_Expression_Term) (e : AST_Arithmetic_Expression)
        (t1 t2 r : Nat), t.CheckType = .ok t1 → e.CheckType = .ok t2 →
        (AST_Arithmetic_Expression.mk Ty (some t) (some e)).CheckType = .ok r → r = t1) ∧
    (∀ (Ty : Nat) (t : AST_Arithmetic_Expression_Term) (f : AST_Arithmetic_Expression_Factor)
        (t1 t2 r : Nat), f.CheckType = .ok t1 → t.CheckType = .ok t2 →
        (AST_Arithmetic_Expression_Term.mk Ty (some t) (some f)).CheckType = .ok r → r = t1) ∧
    (∀ t : AST_Arithmetic_Expression_Term,
        (AST_Arithmetic_Expression.mk 0 (some t) none).CheckType = t.CheckType) ∧
    (∀ f : AST_Arithmetic_Expression_Factor,
        (AST_Arithmetic_Expression_Term.mk 0 none (some f)).CheckType = f.CheckType) ∧
    (∀ (n : Option ℚ) (ch : Char) (b : Bool) (cf : Option AST_CallFuncStatement)
        (e : AST_Arithmetic_Expression) (w : String) (ln : Int),
        (AST_Arithmetic_Expression_Factor.mk aparser.ARITHMETICEXPRESSION
          n ch b cf (some e) w ln).CheckType = e.CheckType) := by
  refine ⟨?_, ?_, ?_, ?_, ?_⟩
  · intro Ty t e t1 t2 r h1 h2 h3
    simp only [AST_Arithmetic_Expression.CheckType, Option.isNone_some, Bool.false_eq_true,
      and_false, if_false, h1, h2, bind, Except.bind] at h3
    split_ifs at h3
    all_goals simp_all
  · intro Ty t f t1 t2 r h1 h2 h3
    simp only [AST_Arithmetic_Expression_Term.CheckType, Option.isNone_some, Bool.false_eq_true,
      and_false, if_false, h1, h2, bind, Except.bind] at h3
    split_ifs at h3
    all_goals simp_all
  · intro t
    simp [AST_Arithmetic_Expression.CheckType]
  · intro f
    simp [AST_Arithmetic_Expression_Term.CheckType]
  · intro n ch b cf e w ln
    simp [AST_Arithmetic_Expression_Factor.CheckType, aparser.ARITHMETICEXPRESSION]

/-- Claim C4, witness: a binary `ADD` node over two `NUMBER` children
resolves to the left type, and the pass-through and parenthesis rules at a
concrete node. -/
theorem C4_witness :
    aparser.NUMBER = aparser.NUMBER ∧
    (AST_Arithmetic_Expression.mk 0 (some wNumTerm) none).CheckType = wNumTerm.CheckType :=
  ⟨C4_leftmost_type.1 aparser.ADD wNumTerm wNumExp aparser.NUMBER aparser.NUMBER
      aparser.NUMBER rfl rfl rfl,
   C4_leftmost_type.2.2.1 wNumTerm⟩

/-! ### C5: exact rational arithmetic of `AST_Number` -/

/-- Claim C5.  `Add` on the values parsed from `"0.1"` and `"0.2"` equals
exactly the value parsed from `"0.3"`; every value produced by literals
combined with `Add`/`Sub`/`Mul`/`Div` keeps a non-zero positive denominator
(the `big.Rat`/`ℚ` invariant); and division is exact — it never truncates
(`q * b = a` whenever `Div a b` succeeds). -/
theorem C5_rational_exact :
    ASTNumber.Add (New_ASTNumber "0.1") (New_ASTNumber "0.2") = New_ASTNumber "0.3" ∧
    (∀ (e : NumExpr) (q : ℚ), e.eval = some q → q.den ≠ 0 ∧ 0 < q.den) ∧
    (∀ (a b q : ℚ), ASTNumber.Div a b = some q → b ≠ 0 ∧ q * b = a) := by
  refine ⟨?_, ?_, ?_⟩
  · have h1 : New_ASTNumber "0.1" = 1 / 10 := by
      show ((0 : ℕ) : ℚ) + ((1 : ℕ) : ℚ) / (10 : ℚ) ^ (1 : ℕ) = 1 / 10
      norm_num
    have h2 : New_ASTNumber "0.2" = 2 / 10 := by
      show ((0 : ℕ) : ℚ) + ((2 : ℕ) : ℚ) / (10 : ℚ) ^ (1 : ℕ) = 2 / 10
      norm_num
    have h3 : New_ASTNumber "0.3" = 3 / 10 := by
      show ((0 : ℕ) : ℚ) + ((3 : ℕ) : ℚ) / (10 : ℚ) ^ (1 : ℕ) = 3 / 10
      norm_num
    rw [ASTNumber.Add, h1, h2, h3]
    norm_num
  · intro e q _
    exact ⟨q.den_nz, q.pos⟩
  · intro a b q h
    by_cases hb : b = 0
    · simp [ASTNumber.Div, hb] at h
    · rw [ASTNumber.Div, if_neg hb] at h
      cases h
      exact ⟨hb, div_mul_cancel₀ a hb⟩

/-- Claim C5, witness: the invariants applied to the concrete quotient
`1 / 3` of two literals. -/
theorem C5_witness :
    (((1 : ℚ) / 3).den ≠ 0 ∧ 0 < ((1 : ℚ) / 3).den) ∧
    ((3 : ℚ) ≠ 0 ∧ (1 : ℚ) / 3 * 3 = 1) :=
  ⟨C5_rational_exact.2.1 (NumExpr.div (.lit "1") (.lit "3")) (1 / 3) (by
      have ha : New_ASTNumber "1" = 1 := by
        show ((1 : ℕ) : ℚ) = 1
        norm_num
      have hb : New_ASTNumber "3" = 3 := by
        show ((3 : ℕ) : ℚ) = 3
        norm_num
      simp [NumExpr.eval, ha, hb, ASTNumber.Div]),
   C5_rational_exact.2.2 1 3 (1 / 3) (by norm_num [ASTNumber.Div])⟩

/-! ### C6: the two-dot numeric literal -/

/-- Claim C6, behaviour at the failing input (code bug).  Scanning
`"1.2.3"` yields a single `NUMBER` token `"1.2.3"` and no lex error at all
(the scan proceeds) — the `dot_count > 1` comparison in `judge_number` only
fires on a third dot, as the second conjunct shows on `"1.2.3.4"`, where the
scan records "illegal number" and resumes at the offending dot. -/
theorem C6_second_dot_accepted :
    ReadString "1.2.3" 16 =
      .proceeded [⟨1, 1, "1.2.3", atoken.NUMBER⟩, ⟨1, 7, "End", atoken.EOF⟩] ∧
    judge_number_go "1.2.3.4".toList 0 [] 0 1 1 =
      ("1.2.3".toList, [⟨1, 1, "illegal number"⟩], 4) := by decide

/-! ### C7: keyword versus identifier recognition -/

/-- Claim C7, counterexample.  The maximal identifier run `"funcy"` is not
scanned as one `WORD` token: `judge_word` matches the keyword prefix
`func` with no boundary check, so the scan emits a `FUNC` keyword token
followed by a second token `WORD "y"`. -/
theorem C7_counterexample :
    ReadString "funcy" 16 =
      .proceeded [⟨1, 1, "func", atoken.FUNC⟩, ⟨1, 5, "y", atoken.WORD⟩,
        ⟨1, 7, "End", atoken.EOF⟩] ∧
    atoken.FUNC ≠ atoken.WORD := by decide

/-- Claim C7, amended.  Keyword recognition is by prefix match: whenever a
candidate keyword's characters occur at the current position the keyword
token is emitted even mid-run (splitting the run, e.g. `"forx"` becomes
`FOR` plus `WORD "x"`); only when no candidate keyword matches does the
fallback `judge_other` scan, which does collect the maximal run of
identifier characters into one `WORD` token (first conjunct, and e.g.
`"fun"` stays a single identifier). -/
theorem C7_prefix_keyword_split :
    (∀ (rest : List Char) (i : Nat) (tmp : List Char),
        (judge_other_go rest i tmp).1 = tmp ++ rest.takeWhile judge_symbol) ∧
    ReadString "fun" 16 =
      .proceeded [⟨1, 1, "fun", atoken.WORD⟩, ⟨1, 5, "End", atoken.EOF⟩] ∧
    ReadString "forx" 16 =
      .proceeded [⟨1, 1, "for", atoken.FOR⟩, ⟨1, 4, "x", atoken.WORD⟩,
        ⟨1, 6, "End", atoken.EOF⟩] := by
  refine ⟨?_, by decide, by decide⟩
  intro rest
  induction rest with
  | nil => intro i tmp; simp [judge_other_go]
  | cons ch rest ih =>
      intro i tmp
      by_cases hs : judge_symbol ch
      · simp [judge_other_go, hs, ih]
      · simp [judge_other_go, hs]

/-! ### C8: lex-error accumulation with a fail-fast gate -/

/-- Claim C8.  Whenever the scan loop completes, `ReadString` halts the
pipeline (reporting the accumulated batch) exactly when the error list is
nonempty, and proceeds to parsing otherwise; the scanner does not stop at
the first error — `"@ 1"` still tokenizes the `1` after the illegal `@`,
and `"@ @"` accumulates both errors in one scan. -/
theorem C8_error_accumulation :
    (∀ (s : String) (fuel : Nat) (st : ScanState),
        scan_loop s.toList fuel 0 initScanState = .ok st →
        ((ReadString s fuel = ReadOutcome.halted st.errors st.tokens) ↔ st.errors ≠ []) ∧
        (st.errors = [] → ReadString s fuel = ReadOutcome.proceeded st.tokens)) ∧
    ReadString "@ @" 16 =
      .halted [⟨1, 1, "illegal token \x27@\x27"⟩, ⟨1, 3, "illegal token \x27@\x27"⟩]
        [⟨1, 4, "End", atoken.EOF⟩] ∧
    ReadString "@ 1" 16 =
      .halted [⟨1, 1, "illegal token \x27@\x27"⟩]
        [⟨1, 3, "1", atoken.NUMBER⟩, ⟨1, 5, "End", atoken.EOF⟩] := by
  refine ⟨?_, by decide, by decide⟩
  intro s fuel st h
  unfold ReadString
  rw [h]
  cases hE : st.errors <;> simp [hE]

/-- Claim C8, witness: the gate applied to the completed scan of `"1"`
(no errors, so the pipeline proceeds). -/
theorem C8_witness :
    ((ReadString "1" 8 = ReadOutcome.halted C8state.errors C8state.tokens) ↔
      C8state.errors ≠ []) ∧
    (C8state.errors = [] → ReadString "1" 8 = ReadOutcome.proceeded C8state.tokens) :=
  C8_error_accumulation.1 "1" 8 C8state (by decide)

/-! ### C9: tokenizer in-bounds access -/

/-- Claim C9, behaviour at the failing input (code bug).  On the two-rune
source `"` followed by `\`, `judge_string` consumes the backslash, advances
the index past the end of the input and reads it with no bounds check: the
Go scan panics with an index-out-of-range error instead of reporting the
unterminated-string lex error.  The second conjunct shows the panic arising
inside the `judge_string` loop itself. -/
theorem C9_escape_out_of_bounds :
    ReadString "\"\\" 8 = .panicked ∧
    judge_string_go ['"', '\\'] 0 [] 0 1 1 = .panic := by decide

/-! ### C10: silent skip of a malformed identifier statement -/

/-- Claim C10.  When the statement starts with a `WORD` token and the token
after it is none of `(`, `=`, `,`, both `Statement` and
`BlockStatement_Factor` consume exactly those two tokens, record no error
(they return `.ok`, not `.exited`), build no AST node, and report success
(`true`). -/
theorem C10_silent_skip (file : String) (fuel : Nat) (c : Cursor) (i : Nat) (t1 t2 : AToken)
    (hp : c.pos = some i)
    (h1 : c.tokens.get? i = some t1) (hw : t1.Ty = atoken.WORD)
    (h2 : c.tokens.get? (i + 1) = some t2)
    (hn1 : t2.Ty ≠ atoken.LP) (hn2 : t2.Ty ≠ atoken.ASSIGMENT) (hn3 : t2.Ty ≠ atoken.COMMA) :
    Statement file (fuel + 1) c =
      .ok (true, ⟨c.tokens, if i + 2 < c.tokens.length then some (i + 2) else none⟩) ∧
    BlockStatement_Factor file (fuel + 1) c =
      .ok (true, ⟨c.tokens, if i + 2 < c.tokens.length then some (i + 2) else none⟩) := by
  have h1' : c.tokens[i]? = some t1 := by rwa [List.get?_eq_getElem?] at h1
  have h2' : c.tokens[i + 1]? = some t2 := by rwa [List.get?_eq_getElem?] at h2
  have hi1 : i + 1 < c.tokens.length := by
    by_contra hcon
    rw [List.getElem?_eq_none (Nat.le_of_not_lt hcon)] at h2'
    cases h2'
  have e1 : c.GetToken = (some t1, ⟨c.tokens, some (i + 1)⟩) := by
    simp [Cursor.GetToken, hp, h1', hi1]
  have e2 : (Cursor.mk c.tokens (some (i + 1))).BackToken = (some t1, ⟨c.tokens, some i⟩) := by
    simp [Cursor.BackToken, h1']
  have e3 : (Cursor.mk c.tokens (some i)).GetToken = (some t1, ⟨c.tokens, some (i + 1)⟩) := by
    simp [Cursor.GetToken, h1', hi1]
  have e4 : (Cursor.mk c.tokens (some (i + 1))).GetToken =
      (some t2, ⟨c.tokens, if i + 2 < c.tokens.length then some (i + 2) else none⟩) := by
    simp [Cursor.GetToken, h2']
  simp only [atoken.LP] at hn1
  simp only [atoken.ASSIGMENT] at hn2
  simp only [atoken.COMMA] at hn3
  constructor
  · simp only [Statement, pGetToken, pBackToken, e1, e2, e3, e4, bind, Except.bind, hw]
    simp [atoken.WORD, atoken.FUNC, atoken.VAR, atoken.LP, atoken.ASSIGMENT, atoken.COMMA,
      hn1, hn2, hn3]
  · simp only [BlockStatement_Factor, pGetToken, pBackToken, e1, e2, e3, e4, bind,
      Except.bind, hw]
    simp [atoken.WORD, atoken.VAR, atoken.LP, atoken.ASSIGMENT, atoken.COMMA, hn1, hn2, hn3]

/-- Claim C10, witness: the silent skip applied to the concrete statement
`x` followed by a newline token. -/
theorem C10_witness :
    Statement "" 4 ⟨C10toks, some 0⟩ = .ok (true, ⟨C10toks, none⟩) ∧
    BlockStatement_Factor "" 4 ⟨C10toks, some 0⟩ = .ok (true, ⟨C10toks, none⟩) := by
  have h := C10_silent_skip "" 3 ⟨C10toks, some 0⟩ 0 ⟨1, 1, "x", atoken.WORD⟩
    ⟨1, 3, "End", atoken.EOF⟩ rfl rfl rfl rfl (by decide) (by decide) (by decide)
  simpa [C10toks] using h

end Anehta
